import Mathlib

/-!
Shallow embedding of the Netflux UDP protocol implementation
(netflux_receiver.py, netflux_sender.py, netflux_statistics.py).

Bytes are modelled as `Nat` values in [0,255]; wall-clock times and
millisecond durations as `Rat`; byte buffers as `List Nat`.  The Python
expression `(x - y) & 0xFF` on small ints equals the mathematical
`(x - y) mod 256`, embedded with `Int.emod`.  Each stateful method becomes
a pure state-transition function; a side effect (payload delivered to the
data callback, datagram handed to the socket) is returned as an
`Option (List Nat)` alongside the new state.
-/

namespace Netflux

/-- `(a - b) & 0xFF` of Python, for byte values: circular difference mod 256. -/
def byteDiff (a b : Nat) : Int :=
  ((a : Int) - (b : Int)) % 256

/-! ## Receiver (netflux_receiver.py) -/

/-- `ReceiverStats` dataclass. -/
structure ReceiverStats where
  first_packet_received : Bool
  last_valid_packet_time : Rat
  watchdog_timeout : Bool
  total_packets_received : Nat
  total_packets_rejected : Nat

/-- State of `NetfluxReceiver` (configuration plus mutable fields). -/
structure Receiver where
  data_size : Nat
  watch_interval : Rat
  keep_values_on_timeout : Bool
  previous_recv_seq_number : Nat
  previous_feedback_seq_number : Nat
  partner_seq_number : Nat
  current_feedback_seq_number : Nat
  error : Bool
  error_message : String
  stats : ReceiverStats
  last_data : List Nat

/-- `NetfluxReceiver.__init__`. -/
def mkReceiver (data_size : Nat) (watch_interval : Rat)
    (keep_values_on_timeout : Bool) : Receiver :=
  { data_size := data_size
    watch_interval := watch_interval
    keep_values_on_timeout := keep_values_on_timeout
    previous_recv_seq_number := 0
    previous_feedback_seq_number := 0
    partner_seq_number := 0
    current_feedback_seq_number := 0
    error := true
    error_message := "Not started"
    stats := { first_packet_received := false
               last_valid_packet_time := 0
               watchdog_timeout := false
               total_packets_received := 0
               total_packets_rejected := 0 }
    last_data := List.replicate data_size 0 }

/-- `NetfluxReceiver._is_new_packet`. -/
def is_new_packet (r : Receiver) (recv_seq : Nat) : Bool :=
  if !r.stats.first_packet_received then
    true
  else
    let diff := byteDiff recv_seq r.previous_recv_seq_number
    decide (1 ≤ diff ∧ diff < 128)

/-- The freshness predicate of `_is_new_packet` after the first packet:
`1 <= (a - b) & 0xFF < 128`. -/
def isFresh (a b : Nat) : Bool :=
  decide (1 ≤ byteDiff a b ∧ byteDiff a b < 128)

/-- One iteration of `NetfluxReceiver._receive_loop` processing a datagram
`dg` of `dg.length` bytes at wall-clock time `now`.  Returns the new state
and `some payload` iff the data callback was invoked with `payload`. -/
def processDatagram (r : Receiver) (now : Rat) (dg : List Nat) :
    Receiver × Option (List Nat) :=
  if dg.length < 2 + r.data_size then
    ({ r with stats := { r.stats with
        total_packets_rejected := r.stats.total_packets_rejected + 1 } }, none)
  else
    let recv_seq_number := dg.getD 0 0
    let feedback_seq_number := dg.getD 1 0
    let r1 := { r with partner_seq_number := recv_seq_number }
    if recv_seq_number ≠ r1.previous_recv_seq_number then
      if is_new_packet r1 recv_seq_number then
        let data_payload := (dg.drop 2).take r1.data_size
        ({ r1 with
            stats := { r1.stats with
              first_packet_received := true
              last_valid_packet_time := now
              total_packets_received := r1.stats.total_packets_received + 1 }
            current_feedback_seq_number := feedback_seq_number
            last_data := data_payload
            previous_recv_seq_number := recv_seq_number
            error := false
            error_message := "" }, some data_payload)
      else
        ({ r1 with stats := { r1.stats with
            total_packets_rejected := r1.stats.total_packets_rejected + 1 } }, none)
    else
      (r1, none)

/-- `NetfluxReceiver._check_watchdog` at wall-clock time `now`.  Returns the
new state and `some payload` iff the data callback was invoked. -/
def checkWatchdog (r : Receiver) (now : Rat) : Receiver × Option (List Nat) :=
  if !r.stats.first_packet_received then
    ({ r with error := true
              error_message := "No valid packet received yet" }, none)
  else if r.current_feedback_seq_number ≠ r.previous_feedback_seq_number then
    ({ r with
        stats := { r.stats with
          last_valid_packet_time := now
          watchdog_timeout := false }
        previous_feedback_seq_number := r.current_feedback_seq_number }, none)
  else if now - r.stats.last_valid_packet_time > r.watch_interval then
    let r2 := { r with
      stats := { r.stats with watchdog_timeout := true }
      error := true
      error_message := "Watchdog timeout" }
    if !r2.keep_values_on_timeout then
      let cleared := List.replicate r2.data_size 0
      ({ r2 with
          last_data := cleared
          stats := { r2.stats with first_packet_received := false } }, some cleared)
    else
      (r2, none)
  else
    (r, none)

/-! ## Sender (netflux_sender.py) -/

/-- State of `NetfluxSender` (configuration plus mutable fields,
`SenderStats` inlined). -/
structure Sender where
  data_size : Nat
  sequence_number : Nat
  partner_seq_number : Nat
  error : Bool
  error_message : String
  total_packets_sent : Nat
  total_send_errors : Nat
  last_send_time : Rat
  send_buffer : List Nat

/-- `NetfluxSender.__init__`. -/
def mkSender (data_size : Nat) : Sender :=
  { data_size := data_size
    sequence_number := 0
    partner_seq_number := 0
    error := false
    error_message := ""
    total_packets_sent := 0
    total_send_errors := 0
    last_send_time := 0
    send_buffer := List.replicate (2 + data_size) 0 }

/-- `NetfluxSender._send_packet` with the payload `data` returned by the
data provider, at wall-clock time `now`.  Returns the new state and
`some packet` iff a datagram was handed to the socket. -/
def sendPacket (s : Sender) (now : Rat) (data : List Nat) :
    Sender × Option (List Nat) :=
  let seq := (s.sequence_number + 1) % 256
  let buf := (s.send_buffer.set 0 seq).set 1 s.partner_seq_number
  let s1 := { s with sequence_number := seq, send_buffer := buf }
  if data.length ≠ s1.data_size then
    ({ s1 with error := true, error_message := "Data provider error" }, none)
  else
    let buf2 := buf.take 2 ++ data
    ({ s1 with
        send_buffer := buf2
        total_packets_sent := s1.total_packets_sent + 1
        last_send_time := now
        error := false
        error_message := "" }, some buf2)

/-- The deadline update of `NetfluxSender._send_loop`: when
`current_time >= next_send_time` a packet is sent and the next deadline is
recomputed, otherwise the deadline stands. -/
def sendLoopDeadline (current_time next_send_time send_interval : Rat) : Rat :=
  if current_time ≥ next_send_time then current_time + send_interval
  else next_send_time

/-! ## Statistics tracker (netflux_statistics.py) -/

/-- State of `NetfluxStatisticsTracker` (`NetfluxStatistics` output fields
inlined; `_last_update_time` is replaced by passing `elapsed_ms` into
`update`, exactly the quantity the Python code derives from it). -/
structure Tracker where
  cycle_time_ms : Rat
  avg_partner_interval : Rat
  avg_own_interval : Rat
  last_rtt : Rat
  total_partner_lost_packets : Nat
  total_feedback_lost_packets : Nat
  own_cycle_counter : Rat
  prev_send_seq_number : Nat
  partner_cycle_counter : Rat
  prev_recv_seq_number : Nat
  prev_feedback_seq_number : Nat
  rtt_counter : Rat
  rtt_tracked_seq_num : Nat

/-- `NetfluxStatisticsTracker.__init__`. -/
def mkTracker (cycle_time_ms : Rat) : Tracker :=
  { cycle_time_ms := cycle_time_ms
    avg_partner_interval := 0
    avg_own_interval := 0
    last_rtt := 0
    total_partner_lost_packets := 0
    total_feedback_lost_packets := 0
    own_cycle_counter := 0
    prev_send_seq_number := 0
    partner_cycle_counter := 0
    prev_recv_seq_number := 0
    prev_feedback_seq_number := 0
    rtt_counter := 0
    rtt_tracked_seq_num := 0 }

/-- `NetfluxStatisticsTracker._update_own_interval`. -/
def updateOwnInterval (t : Tracker) (send_seq_number : Nat)
    (elapsed_ms : Rat) : Tracker :=
  let t1 :=
    if send_seq_number < 3 then
      if 250 < t.prev_send_seq_number then
        let t0 :=
          if 0 < t.own_cycle_counter then
            { t with avg_own_interval :=
                t.own_cycle_counter / 256 - 2 * t.cycle_time_ms }
          else t
        { t0 with own_cycle_counter := 0 }
      else t
    else t
  { t1 with
      own_cycle_counter := t1.own_cycle_counter + elapsed_ms
      prev_send_seq_number := send_seq_number }

/-- `NetfluxStatisticsTracker._update_partner_interval`. -/
def updatePartnerInterval (t : Tracker) (recv_seq_number : Nat)
    (elapsed_ms : Rat) : Tracker :=
  let t1 :=
    if recv_seq_number < 5 then
      if 250 < t.prev_recv_seq_number then
        let t0 :=
          if 0 < t.partner_cycle_counter then
            { t with avg_partner_interval :=
                t.partner_cycle_counter / 256 - 2 * t.cycle_time_ms }
          else t
        { t0 with partner_cycle_counter := 0 }
      else t
    else t
  { t1 with
      partner_cycle_counter := t1.partner_cycle_counter + elapsed_ms
      prev_recv_seq_number := recv_seq_number }

/-- `NetfluxStatisticsTracker._update_packet_loss`. -/
def updatePacketLoss (t : Tracker)
    (recv_seq_number feedback_seq_number : Nat) : Tracker :=
  let recv_diff := byteDiff recv_seq_number t.prev_recv_seq_number
  let t1 :=
    if 1 < recv_diff ∧ recv_diff < 128 then
      { t with total_partner_lost_packets :=
          t.total_partner_lost_packets + (recv_diff - 1).toNat }
    else t
  let t2 :=
    if recv_seq_number < 5 ∧ 250 < t1.prev_recv_seq_number then
      { t1 with total_partner_lost_packets := 0 }
    else t1
  let feedback_diff := byteDiff feedback_seq_number t2.prev_feedback_seq_number
  let t3 :=
    if 1 < feedback_diff ∧ feedback_diff < 128 then
      { t2 with total_feedback_lost_packets :=
          t2.total_feedback_lost_packets + (feedback_diff - 1).toNat }
    else t2
  let t4 :=
    if feedback_seq_number < 15 ∧ 240 < t3.prev_feedback_seq_number then
      { t3 with total_feedback_lost_packets := 0 }
    else t3
  { t4 with prev_feedback_seq_number := feedback_seq_number }

/-- `NetfluxStatisticsTracker._update_rtt`. -/
def updateRtt (t : Tracker) (send_seq_number feedback_seq_number : Nat)
    (elapsed_ms : Rat) : Tracker :=
  if t.rtt_tracked_seq_num = 0 then
    if send_seq_number ≠ t.prev_send_seq_number then
      { t with rtt_tracked_seq_num := send_seq_number, rtt_counter := 0 }
    else t
  else
    let t1 := { t with rtt_counter := t.rtt_counter + elapsed_ms }
    if t1.rtt_tracked_seq_num = feedback_seq_number then
      { t1 with last_rtt := t1.rtt_counter, rtt_tracked_seq_num := 0 }
    else t1

/-- `NetfluxStatisticsTracker.update`: the four private updates in the
order the Python method calls them. -/
def update (t : Tracker)
    (recv_seq_number send_seq_number feedback_seq_number : Nat)
    (elapsed_ms : Rat) : Tracker :=
  let t1 := updateOwnInterval t send_seq_number elapsed_ms
  let t2 := updatePartnerInterval t1 recv_seq_number elapsed_ms
  let t3 := updatePacketLoss t2 recv_seq_number feedback_seq_number
  updateRtt t3 send_seq_number feedback_seq_number elapsed_ms

/-- A sequence of `update` ticks, each tick giving
`(recv_seq, send_seq, feedback_seq, elapsed_ms)`. -/
def runUpdates (t : Tracker) (ticks : List (Nat × Nat × Nat × Rat)) : Tracker :=
  ticks.foldl (fun s tk => update s tk.1 tk.2.1 tk.2.2.1 tk.2.2.2) t

/-! ## Concrete runs used as counterexamples -/

/-- Receiver for one-byte payloads after accepting a first datagram with
sequence number 5. -/
def rcvAfter5 : Receiver :=
  (processDatagram (mkReceiver 1 1 false) 0 [5, 0, 9]).1

/-- `rcvAfter5` after then processing a stale datagram with sequence
number 200 (circular difference 195, not fresh). -/
def rcvAfterStale : Receiver :=
  (processDatagram rcvAfter5 0 [200, 0, 7]).1

/-- `rcvAfter5` after then processing an exact duplicate of the accepted
datagram (sequence number 5 again). -/
def rcvAfterDup : Receiver :=
  (processDatagram rcvAfter5 0 [5, 0, 9]).1

/-- Tracker fed partner sequence numbers 10, 11, 15, 16, one per tick. -/
def trkGapRun : Tracker :=
  runUpdates (mkTracker 1)
    [(10, 0, 0, 10), (11, 0, 0, 10), (15, 0, 0, 10), (16, 0, 0, 10)]

/-- Tracker fed own sequence numbers 5, 6, 6, 6 and feedback sequence
numbers 4, 4, 4, 6, with 10 ms elapsed per tick. -/
def trkRttRun : Tracker :=
  runUpdates (mkTracker 1)
    [(0, 5, 4, 10), (0, 6, 4, 10), (0, 6, 4, 10), (0, 6, 6, 10)]

/-! ## Claims -/

/-- C1 (counterexample): a stale datagram that fails freshness validation
still changes `partner_seq_number`.  After accepting sequence 5, a stale
datagram with sequence 200 is rejected (`total_packets_rejected` grows by
one, `total_packets_received` does not), yet `partner_seq_number` moves
from 5 to 200. -/
theorem partner_seq_changes_on_stale :
    rcvAfter5.partner_seq_number = 5 ∧
    rcvAfterStale.partner_seq_number = 200 ∧
    rcvAfterStale.stats.total_packets_rejected =
      rcvAfter5.stats.total_packets_rejected + 1 ∧
    rcvAfterStale.stats.total_packets_received =
      rcvAfter5.stats.total_packets_received := by
  decide

/-- C1 (amended): `partner_seq_number` is unchanged by an undersized
datagram, but every datagram that passes the size check sets
`partner_seq_number` to its first byte before freshness validation, so
rejected duplicate or stale datagrams can change it. -/
theorem partner_seq_update_rule (r : Receiver) (now : Rat) (dg : List Nat) :
    (processDatagram r now dg).1.partner_seq_number =
      if dg.length < 2 + r.data_size then r.partner_seq_number
      else dg.getD 0 0 := by
  simp only [processDatagram]
  split
  · rfl
  · split
    · split <;> rfl
    · rfl

/-- C2 (counterexample): 128 and 0 are distinct byte values, yet neither
is fresh relative to the other — the circular difference is exactly 128 in
both directions, so the exactly-one property fails on the full table. -/
theorem mutual_nonfresh_at_128 :
    (128 : Nat) ≠ 0 ∧ isFresh 128 0 = false ∧ isFresh 0 128 = false := by
  decide

/-- C2 (amended): for distinct byte values `a` and `b`, never are both
`isFresh a b` and `isFresh b a` true, and exactly one of them holds unless
the circular difference `(a - b) mod 256` is exactly 128, in which case
neither holds. -/
theorem fresh_exactly_one_unless_half (a b : Nat)
    (ha : a < 256) (hb : b < 256) (hne : a ≠ b) :
    ¬(isFresh a b = true ∧ isFresh b a = true) ∧
    (byteDiff a b ≠ 128 → (isFresh a b = true ∨ isFresh b a = true)) ∧
    (byteDiff a b = 128 → isFresh a b = false ∧ isFresh b a = false) := by
  simp only [isFresh, byteDiff, decide_eq_true_eq, decide_eq_false_iff_not,
    not_and, not_lt, ne_eq]
  omega

/-- C2 witness: the amended statement at the concrete pair (3, 5). -/
theorem fresh_exactly_one_unless_half_witness :
    ¬(isFresh 3 5 = true ∧ isFresh 5 3 = true) ∧
    (byteDiff 3 5 ≠ 128 → (isFresh 3 5 = true ∨ isFresh 5 3 = true)) ∧
    (byteDiff 3 5 = 128 → isFresh 3 5 = false ∧ isFresh 5 3 = false) :=
  fresh_exactly_one_unless_half 3 5 (by decide) (by decide) (by decide)

/-- C3 (code evaluated at the failing input): feeding partner sequence
numbers 10, 11, 15, 16 one per `update` tick leaves
`total_partner_lost_packets` at 0, not 3: `update` runs
`updatePartnerInterval` — which overwrites `prev_recv_seq_number` with the
current value — before `updatePacketLoss` reads it, so the computed gap is
always 0 and the loss counter never increments. -/
theorem partner_loss_zero_on_gap_run :
    trkGapRun.total_partner_lost_packets = 0 := by
  decide

/-- C4 (code evaluated at the failing input): with own sequence numbers
5, 6, 6, 6 and feedback 4, 4, 4, 6 at 10 ms per tick, `last_rtt` stays 0
(not 20) and no sequence number is ever tracked: `update` runs
`updateOwnInterval` — which overwrites `prev_send_seq_number` with the
current value — before `updateRtt` compares against it, so the
own-sequence-changed test never fires and RTT tracking never starts. -/
theorem rtt_never_measured :
    trkRttRun.last_rtt = 0 ∧ trkRttRun.rtt_tracked_seq_num = 0 := by
  decide

/-- C5: `sendPacket` pre-increments the sequence number modulo 256 before
building the header, and the first packet built from the initial sender
state carries sequence number 1 in its first byte. -/
theorem first_packet_carries_seq_one (n : Nat) (now : Rat) (d : List Nat)
    (s : Sender) (h : d.length = n) :
    (sendPacket s now d).1.sequence_number = (s.sequence_number + 1) % 256 ∧
    ((sendPacket (mkSender n) now d).2.map fun p => p.getD 0 0) = some 1 := by
  constructor
  · simp only [sendPacket]
    split <;> rfl
  · have hrep : List.replicate (2 + n) (0 : Nat) =
        0 :: 0 :: List.replicate n 0 := by
      rw [Nat.add_comm]
      rfl
    simp only [sendPacket, mkSender, hrep]
    rw [if_neg (by simp [h])]
    rfl

/-- C5 witness: the statement at data size 1 with payload [7] from the
initial sender state. -/
theorem first_packet_carries_seq_one_witness :
    (sendPacket (mkSender 1) 0 [7]).1.sequence_number =
      ((mkSender 1).sequence_number + 1) % 256 ∧
    ((sendPacket (mkSender 1) 0 [7]).2.map fun p => p.getD 0 0) = some 1 :=
  first_packet_carries_seq_one 1 0 [7] (mkSender 1) (by decide)

/-- C6: when the watchdog fires (a first packet was accepted, the feedback
sequence number shows no change, and more than `watch_interval` has passed
since the last liveness evidence), `watchdog_timeout` becomes true; with
`keep_values_on_timeout = false` the stored payload becomes all-zero bytes,
and with `keep_values_on_timeout = true` it is unchanged. -/
theorem watchdog_timeout_payload_behavior (r : Receiver) (now : Rat)
    (h1 : r.stats.first_packet_received = true)
    (h2 : r.current_feedback_seq_number = r.previous_feedback_seq_number)
    (h3 : now - r.stats.last_valid_packet_time > r.watch_interval) :
    (checkWatchdog r now).1.stats.watchdog_timeout = true ∧
    (r.keep_values_on_timeout = false →
      (checkWatchdog r now).1.last_data = List.replicate r.data_size 0) ∧
    (r.keep_values_on_timeout = true →
      (checkWatchdog r now).1.last_data = r.last_data) := by
  simp only [checkWatchdog, h1, h2, Bool.not_true, Bool.false_eq_true,
    if_false, ne_eq, not_true_eq_false, if_pos h3]
  cases hk : r.keep_values_on_timeout <;> simp [hk]

/-- C6 witness: a receiver that accepted sequence 5 at time 0 with
`watch_interval = 1`, checked at time 2 with unchanged feedback. -/
theorem watchdog_timeout_payload_behavior_witness :
    (checkWatchdog rcvAfter5 2).1.stats.watchdog_timeout = true ∧
    (rcvAfter5.keep_values_on_timeout = false →
      (checkWatchdog rcvAfter5 2).1.last_data =
        List.replicate rcvAfter5.data_size 0) ∧
    (rcvAfter5.keep_values_on_timeout = true →
      (checkWatchdog rcvAfter5 2).1.last_data = rcvAfter5.last_data) :=
  watchdog_timeout_payload_behavior rcvAfter5 2 rfl rfl
    (by rw [show rcvAfter5.stats.last_valid_packet_time = 0 from rfl,
            show rcvAfter5.watch_interval = 1 from rfl]
        norm_num)

/-- C7 (counterexample): an exact duplicate (candidate sequence equal to
the last accepted one) does not increment `total_packets_rejected`.  After
a first accepted packet with sequence 5, reprocessing the same datagram
leaves both counters unchanged — the duplicate is silently ignored rather
than counted as a rejection. -/
theorem duplicate_rejection_not_counted :
    rcvAfter5.stats.first_packet_received = true ∧
    rcvAfterDup.stats.total_packets_rejected =
      rcvAfter5.stats.total_packets_rejected ∧
    rcvAfter5.stats.total_packets_rejected = 0 ∧
    rcvAfterDup.stats.total_packets_received =
      rcvAfter5.stats.total_packets_received := by
  decide

/-- Setting `partner_seq_number` does not change the outcome of
`_is_new_packet`, which only reads `first_packet_received` and
`previous_recv_seq_number`. -/
theorem is_new_packet_set_partner (r : Receiver) (x y : Nat) :
    is_new_packet { r with partner_seq_number := y } x = is_new_packet r x :=
  rfl

/-- C7 (amended): undersized and stale/reordered datagrams increment
`total_packets_rejected` and leave the error flag unchanged; an exact
duplicate is ignored without incrementing the counter (and also leaves the
error flag unchanged); only an accepted packet touches the error flag,
clearing it. -/
theorem rejection_counting_rule (r : Receiver) (now : Rat) (dg : List Nat) :
    (processDatagram r now dg).1.stats.total_packets_rejected =
      (if dg.length < 2 + r.data_size then r.stats.total_packets_rejected + 1
       else if dg.getD 0 0 ≠ r.previous_recv_seq_number then
         (if is_new_packet r (dg.getD 0 0) then r.stats.total_packets_rejected
          else r.stats.total_packets_rejected + 1)
       else r.stats.total_packets_rejected) ∧
    (processDatagram r now dg).1.error =
      (if dg.length < 2 + r.data_size then r.error
       else if dg.getD 0 0 ≠ r.previous_recv_seq_number then
         (if is_new_packet r (dg.getD 0 0) then false else r.error)
       else r.error) := by
  simp only [processDatagram, is_new_packet_set_partner]
  split_ifs with h1 h2 h3 <;> exact ⟨rfl, rfl⟩

/-- C8 (counterexample): with the previous deadline at 0, a send interval
of 5, and the sending iteration happening at wall-clock time 7, the next
deadline becomes 7 + 5 = 12, not 0 + 5 = 5: the code computes
`current_time + send_interval`, not `next_send_time + send_interval`. -/
theorem deadline_not_absolute :
    sendLoopDeadline 7 0 5 = 7 + 5 ∧ sendLoopDeadline 7 0 5 ≠ 0 + 5 := by
  constructor
  · rw [sendLoopDeadline, if_pos (by norm_num)]
  · rw [sendLoopDeadline, if_pos (by norm_num)]
    norm_num

/-- C8 (amended): on every loop iteration that sends (current time at or
past the deadline), the next deadline equals the current wall-clock time
plus `send_interval`. -/
theorem deadline_from_current_time (current next interval : Rat)
    (h : current ≥ next) :
    sendLoopDeadline current next interval = current + interval := by
  rw [sendLoopDeadline, if_pos h]

/-- C8 witness: the amended statement at current time 7, deadline 0,
interval 5. -/
theorem deadline_from_current_time_witness :
    sendLoopDeadline 7 0 5 = 7 + 5 :=
  deadline_from_current_time 7 0 5 (by norm_num)

/-- C9: when the data provider returns a payload whose length differs from
the configured size, no datagram is handed to the socket,
`total_packets_sent` is unchanged, the error flag and message are set, and
a later tick with a correctly sized payload still transmits. -/
theorem payload_mismatch_skips_send (s : Sender) (now later : Rat)
    (d d2 : List Nat) (h : d.length ≠ s.data_size)
    (h2 : d2.length = s.data_size) :
    (sendPacket s now d).2 = none ∧
    (sendPacket s now d).1.total_packets_sent = s.total_packets_sent ∧
    (sendPacket s now d).1.error = true ∧
    (sendPacket s now d).1.error_message = "Data provider error" ∧
    (sendPacket (sendPacket s now d).1 later d2).2.isSome = true := by
  simp only [sendPacket]
  rw [if_pos h]
  refine ⟨rfl, rfl, rfl, rfl, ?_⟩
  rw [if_neg (by simpa using h2)]
  rfl

/-- C9 witness: a sender configured for 2-byte payloads given a 1-byte
payload, then a 2-byte payload on the next tick. -/
theorem payload_mismatch_skips_send_witness :
    (sendPacket (mkSender 2) 0 [7]).2 = none ∧
    (sendPacket (mkSender 2) 0 [7]).1.total_packets_sent =
      (mkSender 2).total_packets_sent ∧
    (sendPacket (mkSender 2) 0 [7]).1.error = true ∧
    (sendPacket (mkSender 2) 0 [7]).1.error_message =
      "Data provider error" ∧
    (sendPacket (sendPacket (mkSender 2) 0 [7]).1 1 [8, 9]).2.isSome =
      true :=
  payload_mismatch_skips_send (mkSender 2) 0 1 [7] [8, 9] (by decide)
    (by decide)

/-- C10: a datagram shorter than `2 + data_size` bytes only increments
`total_packets_rejected`: no sequence extraction happens, so
`partner_seq_number`, `current_feedback_seq_number`, the stored payload
and `total_packets_received` are unchanged and the data callback is not
invoked. -/
theorem undersized_datagram_rejected (r : Receiver) (now : Rat)
    (dg : List Nat) (h : dg.length < 2 + r.data_size) :
    (processDatagram r now dg).2 = none ∧
    (processDatagram r now dg).1.stats.total_packets_rejected =
      r.stats.total_packets_rejected + 1 ∧
    (processDatagram r now dg).1.partner_seq_number =
      r.partner_seq_number ∧
    (processDatagram r now dg).1.current_feedback_seq_number =
      r.current_feedback_seq_number ∧
    (processDatagram r now dg).1.last_data = r.last_data ∧
    (processDatagram r now dg).1.stats.total_packets_received =
      r.stats.total_packets_received := by
  simp [processDatagram, h]

/-- C10 witness: a 1-byte datagram sent to a receiver configured for
20-byte payloads. -/
theorem undersized_datagram_rejected_witness :
    (processDatagram (mkReceiver 20 1 false) 0 [1]).2 = none ∧
    (processDatagram (mkReceiver 20 1 false) 0 [1]).1.stats.total_packets_rejected =
      (mkReceiver 20 1 false).stats.total_packets_rejected + 1 ∧
    (processDatagram (mkReceiver 20 1 false) 0 [1]).1.partner_seq_number =
      (mkReceiver 20 1 false).partner_seq_number ∧
    (processDatagram (mkReceiver 20 1 false) 0 [1]).1.current_feedback_seq_number =
      (mkReceiver 20 1 false).current_feedback_seq_number ∧
    (processDatagram (mkReceiver 20 1 false) 0 [1]).1.last_data =
      (mkReceiver 20 1 false).last_data ∧
    (processDatagram (mkReceiver 20 1 false) 0 [1]).1.stats.total_packets_received =
      (mkReceiver 20 1 false).stats.total_packets_received :=
  undersized_datagram_rejected (mkReceiver 20 1 false) 0 [1] (by decide)

end Netflux
